import Mathlib

/-!
Verification development for the survey-intelligence pipeline
(`process_survey_file` in `src/app.py`).

The pipeline is shallow-embedded over a model of a parsed spreadsheet
table (the output of `pd.read_excel`): a table is an ordered list of
named columns, each carrying a storage kind (pandas dtype) and a list
of cell values aligned by row index.  Missing cells (`NaN`/`NaT`) are
the `Value.null` constructor; a pandas float NaN produced by arithmetic
on missing data is modelled as `Option` `none`.  Timestamp cells carry
their epoch value in seconds (`pd.to_datetime` with `errors='coerce'`
maps non-timestamp cells to `NaT`, i.e. parse failure).
-/

/-- Storage kind of a parsed column: pandas `object` dtype (textual),
a numeric dtype, or any other dtype (e.g. `datetime64`). -/
inductive Storage
  | object
  | numericDt
  | otherDt
deriving DecidableEq, Repr

/-- A scalar cell value of the parsed table.  `null` is a missing cell
(`NaN`); `ts` is a timestamp cell carrying epoch seconds. -/
inductive Value
  | num (q : ℚ)
  | text (s : String)
  | ts (seconds : ℚ)
  | null
deriving DecidableEq, Repr

/-- `pd.isnull` on one cell. -/
def Value.isNull : Value → Bool
  | .null => true
  | _ => false

/-- One parsed column: its header name, dtype and cells. -/
structure Column where
  name : String
  storage : Storage
  values : List Value
deriving DecidableEq, Repr

/-- A parsed table: ordered columns, cells aligned by row index. -/
structure Table where
  cols : List Column
deriving DecidableEq, Repr

/-- Number of rows: the length of the first column (0 for no columns). -/
def Table.nrows (t : Table) : ℕ :=
  match t.cols with
  | [] => 0
  | c :: _ => c.values.length

/-- `df.empty` in pandas: true when any axis has length 0. -/
def Table.isEmptyTable (t : Table) : Bool :=
  t.cols.isEmpty || t.nrows == 0

/-- Whether the list of characters `pre` starts the list `l`. -/
def charsStartWith : List Char → List Char → Bool
  | [], _ => true
  | _ :: _, [] => false
  | a :: as, b :: bs => a == b && charsStartWith as bs

/-- Whether `needle` occurs as a contiguous run inside `hay`. -/
def charsContain (needle : List Char) : List Char → Bool
  | [] => charsStartWith needle []
  | c :: cs => charsStartWith needle (c :: cs) || charsContain needle cs

/-- ASCII lower-casing of one character (Python `str.lower` on the
ASCII column names this pipeline sees). -/
def lowerChar (c : Char) : Char :=
  if 65 ≤ c.toNat ∧ c.toNat ≤ 90 then Char.ofNat (c.toNat + 32) else c

/-- `sub in name.lower()` in Python: case-insensitive substring test. -/
def nameContains (name sub : String) : Bool :=
  charsContain sub.toList (name.toList.map lowerChar)

/-- `df.dropna(subset=[df.columns[0]], how='all')`: keep exactly the
rows whose first-column cell is not missing. -/
def applyMask : List Bool → List Value → List Value
  | b :: bs, v :: vs => if b then v :: applyMask bs vs else applyMask bs vs
  | _, _ => []

/-- Drop every row whose first-column value is missing. -/
def dropEmptyKeyRows (t : Table) : Table :=
  match t.cols with
  | [] => t
  | c0 :: _ =>
    let mask := c0.values.map (fun v => !v.isNull)
    ⟨t.cols.map (fun c => { c with values := applyMask mask c.values })⟩

/-- The fixed SurveyCTO metadata column denylist (`metadata_cols`). -/
def metadata_cols : List String :=
  ["starttime", "endtime", "deviceimei", "subscriberid",
   "_version_", "_index", "_parent_index", "audit",
   "review_status", "review_comment", "formhub/uuid"]

/-- `df.drop(columns=names)`: remove the columns whose header is in
`names`, keeping the rest in order. -/
def dropColumns (t : Table) (names : List String) : Table :=
  ⟨t.cols.filter (fun c => !decide (c.name ∈ names))⟩

/-- Accumulate distinct values in first-occurrence order. -/
def uniqueAux : List Value → List Value → List Value
  | seen, [] => seen.reverse
  | seen, v :: vs =>
    if decide (v ∈ seen) then uniqueAux seen vs
    else uniqueAux (v :: seen) vs

/-- `clean_df[col].dropna().unique()`: distinct non-missing cells in
first-occurrence order. -/
def uniqueVals (vs : List Value) : List Value :=
  uniqueAux [] (vs.filter (fun v => !v.isNull))

/-- The literal set `{1, 2, '1', '2'}` of the Yes/No inference. -/
def yesNoSet : List Value :=
  [.num 1, .num 2, .text "1", .text "2"]

/-- The literal set `{1, 2, 3, 4, 5}` of the Likert inference
(numbers only; no string forms appear in the source). -/
def likertSet : List Value :=
  [.num 1, .num 2, .num 3, .num 4, .num 5]

/-- The numeric cells of a column (what `min`/`max` skip-NA ranges
over for a numeric-dtype column). -/
def numVals (vs : List Value) : List ℚ :=
  vs.filterMap fun v =>
    match v with
    | .num q => some q
    | _ => none

/-- Smallest element of `qs` and `acc` (skip-NA `Series.min`). -/
def foldMin : List ℚ → ℚ → ℚ
  | [], acc => acc
  | q :: qs, acc => foldMin qs (if q < acc then q else acc)

/-- Largest element of `qs` and `acc` (skip-NA `Series.max`). -/
def foldMax : List ℚ → ℚ → ℚ
  | [], acc => acc
  | q :: qs, acc => foldMax qs (if acc < q then q else acc)

/-- `col.min() >= 0 and col.max() <= 100` with pandas skip-NA
semantics: false when every cell is missing (`min` of an all-NA
series is NaN and `NaN >= 0` is false in Python). -/
def percentageTest (vs : List Value) : Bool :=
  match numVals vs with
  | [] => false
  | q :: qs => decide (0 ≤ foldMin qs q) && decide (foldMax qs q ≤ 100)

/-- The semantic-type / assumptions ladder of the schema inferencer
(lines 161-188 of `src/app.py`), first match wins. -/
def classify (c : Column) : String × List String :=
  if nameContains c.name "lat" || nameContains c.name "latitude" then
    ("gps_lat", [])
  else if nameContains c.name "lon" || nameContains c.name "longitude" then
    ("gps_lon", [])
  else if c.storage = Storage.object then
    let unique_vals := uniqueVals c.values
    if unique_vals.length = 0 then ("empty", [])
    else if unique_vals.length < 15 then
      ("categorical",
        if unique_vals.all (fun v => decide (v ∈ yesNoSet)) then
          ["Assumed 1=Yes, 2=No"]
        else if unique_vals.all (fun v => decide (v ∈ likertSet)) then
          ["Treated as Likert scale"]
        else [])
    else ("other", [])
  else if c.storage = Storage.numericDt then
    (if percentageTest c.values then "percentage" else "numeric", [])
  else ("other", [])

/-- `1 - clean_df[col].isnull().mean()`: `none` models the NaN that
pandas produces when the column has zero rows (mean of an empty
series is NaN, and `1 - NaN` is NaN). -/
def completeness (vs : List Value) : Option ℚ :=
  if vs.length = 0 then none
  else some (1 - (vs.countP Value.isNull : ℚ) / vs.length)

/-- The per-column schema record built at lines 190-194. -/
structure ColumnProfile where
  type : String
  assumptions : List String
  completeness : Option ℚ
deriving DecidableEq, Repr

/-- Build the `schema[col]` entry for one column. -/
def columnProfile (c : Column) : ColumnProfile :=
  { type := (classify c).1
    assumptions := (classify c).2
    completeness := completeness c.values }

/-- `df.columns.find` by exact name. -/
def Table.findCol (t : Table) (n : String) : Option Column :=
  t.cols.find? (fun c => decide (c.name = n))

/-- `n in df.columns`. -/
def Table.hasCol (t : Table) (n : String) : Bool :=
  (t.findCol n).isSome

/-- `pd.to_datetime(cell, errors='coerce')`: a timestamp cell parses
to its epoch seconds, anything else coerces to `NaT` (`none`). -/
def parseTimestamp : Value → Option ℚ
  | .ts s => some s
  | _ => none

/-- Round a rational to one decimal place, half to even (Python
`round(x, 1)`). -/
def roundHalfEven (q : ℚ) : ℤ :=
  let f := ⌊q⌋
  if 2 * q < 2 * f + 1 then f
  else if 2 * f + 1 < 2 * q then f + 1
  else if f % 2 = 0 then f else f + 1

/-- One-decimal rounding used for `avg_minutes`. -/
def round1 (q : ℚ) : ℚ := (roundHalfEven (q * 10) : ℚ) / 10

/-- The surviving per-row durations in minutes: rows where both
timestamps parse and `end - start` is strictly positive
(`durations[durations > 0]`; a NaT on either side makes the duration
NaN, and `NaN > 0` is false). -/
def validDurations (df : Table) : List ℚ :=
  match df.findCol "starttime", df.findCol "endtime" with
  | some cs, some ce =>
    ((cs.values.zip ce.values).filterMap fun p =>
      match parseTimestamp p.1, parseTimestamp p.2 with
      | some a, some b => some ((b - a) / 60)
      | _, _ => none).filter fun d => decide (0 < d)
  | _, _ => []

/-- The optional duration summary (`duration_info`). -/
structure DurationInfo where
  avg_minutes : ℚ
  count : ℕ
deriving DecidableEq, Repr

/-- Lines 196-210: compute `duration_info` when both timestamp
columns exist and at least one row survives the positivity filter. -/
def computeDuration (df : Table) : Option DurationInfo :=
  if df.hasCol "starttime" && df.hasCol "endtime" then
    if 0 < (validDurations df).length then
      some { avg_minutes :=
               round1 ((validDurations df).sum / ((validDurations df).length : ℚ))
             count := (validDurations df).length }
    else none
  else none

/-- The successful pipeline output (the dict built at lines 212-219). -/
structure PipelineResult where
  raw_df : Table
  clean_df : Table
  schema : List (String × ColumnProfile)
  metadata_dropped : ℕ
  duration_info : Option DurationInfo
  filename : String
deriving DecidableEq, Repr

/-- The pipeline either returns a full result or an error message with
no partial result (the `(result, error)` pair of the source). -/
inductive ProcessResult
  | ok (r : PipelineResult)
  | err (msg : String)
deriving DecidableEq, Repr

/-- The body of `process_survey_file` after the `df.empty` guard. -/
def buildResult (t : Table) (file_name : String) : PipelineResult :=
  let df := dropEmptyKeyRows t
  let cols_to_drop := (df.cols.map Column.name).filter
    (fun n => decide (n ∈ metadata_cols))
  let clean_df := dropColumns df cols_to_drop
  { raw_df := df
    clean_df := clean_df
    schema := clean_df.cols.map (fun c => (c.name, columnProfile c))
    metadata_dropped := cols_to_drop.length
    duration_info := computeDuration df
    filename := file_name }

/-- `process_survey_file`: the whole pipeline on a parsed table.  The
emptiness guard runs on the parsed table BEFORE the empty-first-column
rows are dropped, exactly as in the source (line 144 before 148). -/
def process_survey_file (t : Table) (file_name : String) : ProcessResult :=
  if t.isEmptyTable then .err "Empty file"
  else .ok (buildResult t file_name)

/-- The `st.cache_data` memoization store, modelled as the spec asks:
an explicit key-value list keyed by the exact input (standing for the
content digest plus arguments), no eviction. -/
abbrev Cache := List ((Table × String) × ProcessResult)

/-- Look up a memoized result for an input key. -/
def cacheLookup (cache : Cache) (k : Table × String) : Option ProcessResult :=
  (cache.find? (fun e => decide (e.1 = k))).map Prod.snd

/-- One call through the memoization layer: serve the cached result
when the key is present, otherwise run the pipeline and record the
result. -/
def cached_process (cache : Cache) (t : Table) (n : String) :
    ProcessResult × Cache :=
  match cacheLookup cache (t, n) with
  | some r => (r, cache)
  | none =>
    let r := process_survey_file t n
    (r, ((t, n), r) :: cache)

/-- Every cache entry stores exactly the pipeline's value for its key
(what `st.cache_data` guarantees for a pure cached function). -/
def CacheConsistent (cache : Cache) : Prop :=
  ∀ e ∈ cache, e.2 = process_survey_file e.1.1 e.1.2

/-! Concrete inputs used by the closed instance theorems below. -/

/-- A parsed table with two rows whose first-column value is missing
in every row: non-empty when parsed, zero rows after the key-row drop. -/
def tEmptyKeys : Table :=
  ⟨[⟨"uid", .numericDt, [.null, .null]⟩,
    ⟨"q1", .object, [.text "a", .text "b"]⟩]⟩

/-- A numeric latitude column whose values all lie within [0, 100]. -/
def cLatPct : Column := ⟨"gps_latitude", .numericDt, [.num 12, .num 77]⟩

/-- A textual column with zero rows. -/
def cNoRows : Column := ⟨"q1", .object, []⟩

/-- A one-row table whose key column is missing in its only row, so
the pipeline succeeds with a zero-row clean table. -/
def tOneNullKey : Table :=
  ⟨[⟨"uid", .numericDt, [.null]⟩, ⟨"q1", .object, [.text "a"]⟩]⟩

/-- A small well-formed survey table: two respondents, one missing
answer in `q2`. -/
def tSmall : Table :=
  ⟨[⟨"uid", .numericDt, [.num 1, .num 2]⟩,
    ⟨"q1", .object, [.text "yes", .text "no"]⟩,
    ⟨"q2", .object, [.text "a", .null]⟩]⟩

/-- The spec's duration scenario: two rows, durations 5 and 2 minutes
(timestamps in epoch seconds). -/
def tDur : Table :=
  ⟨[⟨"uid", .numericDt, [.num 1, .num 2]⟩,
    ⟨"starttime", .otherDt, [.ts 0, .ts 3600]⟩,
    ⟨"endtime", .otherDt, [.ts 300, .ts 3720]⟩]⟩

/-- Start/end timestamp columns where every row has end before start. -/
def tDurNeg : Table :=
  ⟨[⟨"uid", .numericDt, [.num 1, .num 2]⟩,
    ⟨"starttime", .otherDt, [.ts 300, .ts 3720]⟩,
    ⟨"endtime", .otherDt, [.ts 0, .ts 3600]⟩]⟩

/-- A textual column with 20 distinct non-empty values. -/
def cTwenty : Column :=
  ⟨"q3", .object,
   [.text "v01", .text "v02", .text "v03", .text "v04", .text "v05",
    .text "v06", .text "v07", .text "v08", .text "v09", .text "v10",
    .text "v11", .text "v12", .text "v13", .text "v14", .text "v15",
    .text "v16", .text "v17", .text "v18", .text "v19", .text "v20"]⟩

/-- A textual column whose distinct values are the strings "3", "4",
"5": inside {1..5} read as numbers-or-text, but stored as text. -/
def cTextLikert : Column := ⟨"q2", .object, [.text "3", .text "4", .text "5"]⟩

/-- A textual column with exactly the two distinct values "1", "2". -/
def cYesNo : Column := ⟨"q1", .object, [.text "1", .text "2", .text "1"]⟩

/-- A table exercising the metadata denylist: exact matches dropped,
a case-variant name and ordinary columns kept. -/
def tMeta : Table :=
  ⟨[⟨"uid", .numericDt, [.num 1]⟩,
    ⟨"starttime", .otherDt, [.ts 0]⟩,
    ⟨"Starttime", .otherDt, [.ts 0]⟩,
    ⟨"subscriberid", .object, [.text "s"]⟩,
    ⟨"q1", .object, [.text "x"]⟩]⟩

/-- An all-missing numeric column. -/
def cAllNullNum : Column := ⟨"n1", .numericDt, [.null, .null]⟩

/-! Shared helper lemmas. -/

/-- On a non-empty parsed table the pipeline succeeds and returns the
built result. -/
theorem process_ok (t : Table) (n : String) (h : t.isEmptyTable = false) :
    process_survey_file t n = .ok (buildResult t n) := by
  simp [process_survey_file, h]

/-- A successful run determines the result: it is `buildResult`. -/
theorem ok_eq_buildResult (t : Table) (n : String) (r : PipelineResult)
    (h : process_survey_file t n = .ok r) : r = buildResult t n := by
  unfold process_survey_file at h
  split at h
  · exact absurd h (by simp)
  · exact (ProcessResult.ok.injEq _ _ ▸ h).symm

/-- A defined completeness value always lies in the unit interval. -/
theorem completeness_mem_unit (vs : List Value) (q : ℚ)
    (h : completeness vs = some q) : 0 ≤ q ∧ q ≤ 1 := by
  unfold completeness at h
  split at h
  · exact absurd h (by simp)
  · rename_i hlen
    have hq : q = 1 - (vs.countP Value.isNull : ℚ) / vs.length :=
      (Option.some.injEq _ _ ▸ h).symm
    have hpos : (0 : ℚ) < vs.length := by
      have : 0 < vs.length := Nat.pos_of_ne_zero hlen
      exact_mod_cast this
    have hle : (vs.countP Value.isNull : ℚ) ≤ (vs.length : ℚ) := by
      exact_mod_cast List.countP_le_length _
    have h0 : (0 : ℚ) ≤ (vs.countP Value.isNull : ℚ) / vs.length :=
      div_nonneg (by positivity) (le_of_lt hpos)
    have h1 : (vs.countP Value.isNull : ℚ) / vs.length ≤ 1 :=
      (div_le_one hpos).mpr hle
    constructor
    · rw [hq]; linarith
    · rw [hq]; linarith

/-! Claim C1. -/

/-- Claim C1 counterexample: a parsed table with two rows, every
first-column value missing.  The claim requires failure with
`EmptyInputError`; the code returns a full result (with a zero-row
clean table) because the emptiness guard runs before the key-row
drop. -/
theorem C1_counterexample :
    tEmptyKeys.nrows = 2 ∧ (dropEmptyKeyRows tEmptyKeys).nrows = 0 ∧
    process_survey_file tEmptyKeys "f.xlsx" ≠ .err "Empty file" ∧
    process_survey_file tEmptyKeys "f.xlsx" =
      .ok (buildResult tEmptyKeys "f.xlsx") := by
  refine ⟨by decide, by decide, ?_, by decide⟩
  intro h
  simp [process_survey_file, tEmptyKeys, Table.isEmptyTable, Table.nrows] at h

/-- Claim C1 (amended): the pipeline fails with `EmptyInputError`
("Empty file") exactly when the PARSED table is empty (zero rows or
zero columns) BEFORE empty-first-column rows are removed; on failure
no result is returned.  A table whose rows all have a missing
first-column value does not fail: it yields a result with a zero-row
clean table. -/
theorem C1_empty_guard (t : Table) (n : String) :
    process_survey_file t n = .err "Empty file" ↔ t.isEmptyTable = true := by
  unfold process_survey_file
  cases ht : t.isEmptyTable <;> simp [ht]

/-! Claim C2. -/

/-- Claim C2 (confirmed): any column whose name contains a latitude
marker (case-insensitive substring) is classified `gps_lat`
(the spec's `gps_latitude`), whatever its storage kind and values:
the GPS name check is the first rung of the ladder. -/
theorem C2_gps_latitude (c : Column)
    (h : (nameContains c.name "lat" || nameContains c.name "latitude") = true) :
    (columnProfile c).type = "gps_lat" := by
  simp [columnProfile, classify, h]

/-- Claim C2 witness: the numeric column `gps_latitude` with all
values inside [0, 100] — it passes the percentage test, yet is
classified `gps_lat`. -/
theorem C2_witness :
    (nameContains cLatPct.name "lat" || nameContains cLatPct.name "latitude")
        = true ∧
    cLatPct.storage = Storage.numericDt ∧
    percentageTest cLatPct.values = true ∧
    (columnProfile cLatPct).type = "gps_lat" :=
  ⟨by decide, by decide, by decide, C2_gps_latitude cLatPct (by decide)⟩

/-! Claim C3. -/

/-- Claim C3 counterexample: a zero-row column's completeness is not
1.0 — pandas propagates the NaN mean (`none` here), so the profile's
completeness is undefined rather than 1.0. -/
theorem C3_counterexample :
    cNoRows.values.length = 0 ∧
    (columnProfile cNoRows).completeness ≠ some 1 ∧
    (columnProfile cNoRows).completeness = none := by
  refine ⟨by decide, ?_, by decide⟩
  intro h
  simp [columnProfile, completeness, cNoRows] at h

/-- Claim C3 (amended): for every zero-row column the computation does
not crash, but the stored completeness is the NaN of
`1 - Series([]).isnull().mean()` (modelled `none`), not 1.0. -/
theorem C3_zero_rows_completeness (c : Column) (h : c.values.length = 0) :
    (columnProfile c).completeness = none := by
  simp [columnProfile, completeness, h]

/-- Claim C3 witness: the amended statement evaluated on the concrete
zero-row column. -/
theorem C3_witness :
    cNoRows.values.length = 0 ∧ (columnProfile cNoRows).completeness = none :=
  ⟨by decide, C3_zero_rows_completeness cNoRows (by decide)⟩

/-! Claim C4. -/

/-- Claim C4 counterexample: a successful input (one row, missing key)
whose clean table has zero rows — both schema entries carry the NaN
completeness (`none`), which is not a value in [0, 1]. -/
theorem C4_counterexample :
    process_survey_file tOneNullKey "f.xlsx" =
      .ok (buildResult tOneNullKey "f.xlsx") ∧
    (buildResult tOneNullKey "f.xlsx").schema.map (fun e => e.2.completeness)
      = [none, none] := by
  decide

/-- Claim C4 (amended): on every successful run the schema has exactly
one entry per clean-table column (keys equal the clean columns'
names, in order); every DEFINED completeness lies in [0, 1]; an
undefined (NaN) completeness happens only for a zero-row column — the
original claim's "completeness ∈ [0,1]" fails in that degenerate
case. -/
theorem C4_schema_invariants (t : Table) (n : String) (r : PipelineResult)
    (h : process_survey_file t n = .ok r) :
    r.schema.map Prod.fst = r.clean_df.cols.map Column.name ∧
    (∀ e ∈ r.schema, ∀ q : ℚ, e.2.completeness = some q → 0 ≤ q ∧ q ≤ 1) ∧
    (∀ e ∈ r.schema, e.2.completeness = none →
      ∃ c ∈ r.clean_df.cols, c.name = e.1 ∧ c.values = []) := by
  have hr := ok_eq_buildResult t n r h
  subst hr
  simp only [buildResult]
  refine ⟨?_, ?_, ?_⟩
  · rw [List.map_map]
    rfl
  · intro e he q hq
    simp only [List.mem_map] at he
    obtain ⟨c, _, rfl⟩ := he
    exact completeness_mem_unit c.values q hq
  · intro e he hnone
    simp only [List.mem_map] at he
    obtain ⟨c, hc, rfl⟩ := he
    refine ⟨c, hc, rfl, ?_⟩
    have hlen : c.values.length = 0 := by
      by_contra hne
      simp [columnProfile, completeness, hne] at hnone
    exact List.length_eq_zero.mp hlen

/-- Claim C4 witness: the amended invariants applied to a small
two-row survey table. -/
theorem C4_witness :
    process_survey_file tSmall "f.xlsx" = .ok (buildResult tSmall "f.xlsx") ∧
    (buildResult tSmall "f.xlsx").schema.map Prod.fst = ["uid", "q1", "q2"] := by
  have hp : process_survey_file tSmall "f.xlsx" =
      .ok (buildResult tSmall "f.xlsx") := process_ok tSmall "f.xlsx" (by decide)
  refine ⟨hp, ?_⟩
  rw [(C4_schema_invariants tSmall "f.xlsx" _ hp).1]
  decide

/-! Claim C5. -/

/-- Presence of the duration summary: both timestamp columns and a
non-empty list of surviving durations. -/
theorem computeDuration_isSome (df : Table) :
    (computeDuration df).isSome = true ↔
      (df.hasCol "starttime" = true ∧ df.hasCol "endtime" = true ∧
       validDurations df ≠ []) := by
  unfold computeDuration
  split
  · rename_i hb
    rw [Bool.and_eq_true] at hb
    split
    · rename_i hlen
      simp [hb.1, hb.2, List.length_pos.mp hlen]
    · rename_i hlen
      have hnil : validDurations df = [] := by
        cases hvd : validDurations df with
        | nil => rfl
        | cons a l => exact absurd (hvd ▸ Nat.succ_pos _) hlen
      simp [hnil]
  · rename_i hb
    simp only [Option.isSome_none, Bool.false_eq_true, false_iff]
    intro hcon
    exact hb (by rw [hcon.1, hcon.2.1]; rfl)

/-- Value of the duration summary when present: mean of the surviving
durations rounded to one decimal, and their count. -/
theorem computeDuration_some (df : Table) (s : DurationInfo)
    (h : computeDuration df = some s) :
    s.avg_minutes =
      round1 ((validDurations df).sum / ((validDurations df).length : ℚ)) ∧
    s.count = (validDurations df).length := by
  unfold computeDuration at h
  split at h
  · split at h
    · injection h with h
      subst h
      exact ⟨rfl, rfl⟩
    · cases h
  · cases h

/-- Claim C5 (confirmed): on every successful run, the duration
summary is present iff both `starttime` and `endtime` columns exist
and at least one row has a parsed, strictly positive end-minus-start
duration; when present, `avg_minutes` is the arithmetic mean of the
surviving durations in minutes rounded to one decimal place and
`count` is the number of surviving rows.  When every duration is
non-positive the summary is absent. -/
theorem C5_duration_summary (t : Table) (n : String) (r : PipelineResult)
    (h : process_survey_file t n = .ok r) :
    (r.duration_info.isSome = true ↔
      ((dropEmptyKeyRows t).hasCol "starttime" = true ∧
       (dropEmptyKeyRows t).hasCol "endtime" = true ∧
       validDurations (dropEmptyKeyRows t) ≠ [])) ∧
    (∀ s, r.duration_info = some s →
      s.avg_minutes = round1 ((validDurations (dropEmptyKeyRows t)).sum /
          ((validDurations (dropEmptyKeyRows t)).length : ℚ)) ∧
      s.count = (validDurations (dropEmptyKeyRows t)).length) := by
  have hr := ok_eq_buildResult t n r h
  subst hr
  constructor
  · simpa only [buildResult] using computeDuration_isSome (dropEmptyKeyRows t)
  · intro s hs
    exact computeDuration_some (dropEmptyKeyRows t) s
      (by simpa only [buildResult] using hs)

/-- Claim C5 witness: on the spec's scenario (durations 5 and 2
minutes) the summary is `avg_minutes = 3.5, count = 2`; on the
all-negative-duration table the summary is absent. -/
theorem C5_witness :
    process_survey_file tDur "f.xlsx" = .ok (buildResult tDur "f.xlsx") ∧
    (buildResult tDur "f.xlsx").duration_info = some ⟨7/2, 2⟩ ∧
    process_survey_file tDurNeg "g.xlsx" = .ok (buildResult tDurNeg "g.xlsx") ∧
    (buildResult tDurNeg "g.xlsx").duration_info = none := by
  have hp1 : process_survey_file tDur "f.xlsx" =
      .ok (buildResult tDur "f.xlsx") := process_ok tDur "f.xlsx" (by decide)
  have hp2 : process_survey_file tDurNeg "g.xlsx" =
      .ok (buildResult tDurNeg "g.xlsx") := process_ok tDurNeg "g.xlsx" (by decide)
  have hvd : validDurations (dropEmptyKeyRows tDur) = [5, 2] := by
    have h1 : (dropEmptyKeyRows tDur).findCol "starttime" =
        some ⟨"starttime", .otherDt, [.ts 0, .ts 3600]⟩ := by decide
    have h2 : (dropEmptyKeyRows tDur).findCol "endtime" =
        some ⟨"endtime", .otherDt, [.ts 300, .ts 3720]⟩ := by decide
    unfold validDurations
    rw [h1, h2]
    norm_num [parseTimestamp, List.zip, List.zipWith, List.filterMap, List.filter]
  have hvdn : validDurations (dropEmptyKeyRows tDurNeg) = [] := by
    have h1 : (dropEmptyKeyRows tDurNeg).findCol "starttime" =
        some ⟨"starttime", .otherDt, [.ts 300, .ts 3720]⟩ := by decide
    have h2 : (dropEmptyKeyRows tDurNeg).findCol "endtime" =
        some ⟨"endtime", .otherDt, [.ts 0, .ts 3600]⟩ := by decide
    unfold validDurations
    rw [h1, h2]
    norm_num [parseTimestamp, List.zip, List.zipWith, List.filterMap, List.filter]
  have h5 := C5_duration_summary tDur "f.xlsx" _ hp1
  have h5n := C5_duration_summary tDurNeg "g.xlsx" _ hp2
  refine ⟨hp1, ?_, hp2, ?_⟩
  · have hsome : (buildResult tDur "f.xlsx").duration_info.isSome = true :=
      h5.1.mpr ⟨by decide, by decide, by rw [hvd]; simp⟩
    obtain ⟨s, hs⟩ := Option.isSome_iff_exists.mp hsome
    have hflds := h5.2 s hs
    have havg : s.avg_minutes = 7/2 := by
      rw [hflds.1, hvd]
      norm_num [round1, roundHalfEven, List.sum_cons, List.sum_nil]
    have hcount : s.count = 2 := by
      rw [hflds.2, hvd]
      rfl
    rw [hs]
    cases s
    simp_all
  · cases hdi : (buildResult tDurNeg "g.xlsx").duration_info with
    | none => rfl
    | some s =>
      have hsome : (buildResult tDurNeg "g.xlsx").duration_info.isSome = true := by
        rw [hdi]; rfl
      exact absurd hvdn (h5n.1.mp hsome).2.2

/-! Claim C6. -/

/-- Claim C6 (confirmed): a textual (object-dtype) column whose name
matches no GPS marker is classified by distinct non-empty value count:
0 → `empty`, 1..14 → `categorical`, 15 or more → `other`. -/
theorem C6_textual_cardinality (c : Column)
    (hs : c.storage = Storage.object)
    (h1 : nameContains c.name "lat" = false)
    (h2 : nameContains c.name "latitude" = false)
    (h3 : nameContains c.name "lon" = false)
    (h4 : nameContains c.name "longitude" = false) :
    ((uniqueVals c.values).length = 0 → (columnProfile c).type = "empty") ∧
    (1 ≤ (uniqueVals c.values).length → (uniqueVals c.values).length ≤ 14 →
      (columnProfile c).type = "categorical") ∧
    (15 ≤ (uniqueVals c.values).length → (columnProfile c).type = "other") := by
  refine ⟨?_, ?_, ?_⟩
  · intro hlen
    simp [columnProfile, classify, h1, h2, h3, h4, hs, hlen]
  · intro ha hb
    have h0 : ¬((uniqueVals c.values).length = 0) := by omega
    have h15 : (uniqueVals c.values).length < 15 := by omega
    simp [columnProfile, classify, h1, h2, h3, h4, hs, h0, h15]
  · intro ha
    have h0 : ¬((uniqueVals c.values).length = 0) := by omega
    have h15 : ¬((uniqueVals c.values).length < 15) := by omega
    simp [columnProfile, classify, h1, h2, h3, h4, hs, h0, h15]

/-- Claim C6 witness: a textual column with 20 distinct non-empty
values is classified `other`, not `categorical`. -/
theorem C6_witness :
    cTwenty.storage = Storage.object ∧
    (uniqueVals cTwenty.values).length = 20 ∧
    (columnProfile cTwenty).type = "other" :=
  ⟨by decide, by decide,
    (C6_textual_cardinality cTwenty (by decide) (by decide) (by decide)
      (by decide) (by decide)).2.2 (by decide)⟩

/-! Claim C7. -/

/-- Claim C7 counterexample: the textual column with distinct values
"3", "4", "5" — each inside {1..5} read as number-or-text — is
categorical but gets NO assumption: the source's Likert subset check
`set(unique_vals) <= {1,2,3,4,5}` matches numbers only, so text
digits do not trigger it. -/
theorem C7_counterexample :
    (∀ v ∈ uniqueVals cTextLikert.values,
      v = .text "1" ∨ v = .text "2" ∨ v = .text "3" ∨ v = .text "4" ∨
      v = .text "5") ∧
    (columnProfile cTextLikert).type = "categorical" ∧
    (columnProfile cTextLikert).assumptions = [] := by
  decide

/-- Claim C7 (amended): for a textual column classified categorical
(no GPS marker, 1..14 distinct non-empty values): a distinct-value
set inside {1, 2, "1", "2"} (numbers OR text) gets "Assumed 1=Yes,
2=No"; otherwise a distinct-value set inside {1,...,5} AS NUMBERS
ONLY gets "Treated as Likert scale" (text digits do not match);
otherwise no assumption is appended. -/
theorem C7_categorical_assumptions (c : Column)
    (hs : c.storage = Storage.object)
    (h1 : nameContains c.name "lat" = false)
    (h2 : nameContains c.name "latitude" = false)
    (h3 : nameContains c.name "lon" = false)
    (h4 : nameContains c.name "longitude" = false)
    (hlo : 1 ≤ (uniqueVals c.values).length)
    (hhi : (uniqueVals c.values).length ≤ 14) :
    ((∀ v ∈ uniqueVals c.values, v ∈ yesNoSet) →
        (columnProfile c).assumptions = ["Assumed 1=Yes, 2=No"]) ∧
    (¬(∀ v ∈ uniqueVals c.values, v ∈ yesNoSet) →
      (∀ v ∈ uniqueVals c.values, v ∈ likertSet) →
        (columnProfile c).assumptions = ["Treated as Likert scale"]) ∧
    (¬(∀ v ∈ uniqueVals c.values, v ∈ yesNoSet) →
      ¬(∀ v ∈ uniqueVals c.values, v ∈ likertSet) →
        (columnProfile c).assumptions = []) := by
  have h0 : ¬((uniqueVals c.values).length = 0) := by omega
  have h15 : (uniqueVals c.values).length < 15 := by omega
  have hall12 : ((uniqueVals c.values).all (fun v => decide (v ∈ yesNoSet))
      = true) ↔ (∀ v ∈ uniqueVals c.values, v ∈ yesNoSet) := by
    simp [List.all_eq_true]
  have hall15 : ((uniqueVals c.values).all (fun v => decide (v ∈ likertSet))
      = true) ↔ (∀ v ∈ uniqueVals c.values, v ∈ likertSet) := by
    simp [List.all_eq_true]
  refine ⟨?_, ?_, ?_⟩
  · intro hv
    simp [columnProfile, classify, h1, h2, h3, h4, hs, h0, h15, hall12.mpr hv]
  · intro hnv hv
    have ha : (uniqueVals c.values).all (fun v => decide (v ∈ yesNoSet))
        = false := Bool.eq_false_iff.mpr (fun hh => hnv (hall12.mp hh))
    simp [columnProfile, classify, h1, h2, h3, h4, hs, h0, h15, ha,
      hall15.mpr hv]
  · intro hnv hnl
    have ha : (uniqueVals c.values).all (fun v => decide (v ∈ yesNoSet))
        = false := Bool.eq_false_iff.mpr (fun hh => hnv (hall12.mp hh))
    have hb : (uniqueVals c.values).all (fun v => decide (v ∈ likertSet))
        = false := Bool.eq_false_iff.mpr (fun hh => hnl (hall15.mp hh))
    simp [columnProfile, classify, h1, h2, h3, h4, hs, h0, h15, ha, hb]

/-- Claim C7 witness: a textual column with exactly the distinct
values "1" and "2" is categorical with the Yes/No assumption. -/
theorem C7_witness :
    cYesNo.storage = Storage.object ∧
    uniqueVals cYesNo.values = [.text "1", .text "2"] ∧
    (columnProfile cYesNo).type = "categorical" ∧
    (columnProfile cYesNo).assumptions = ["Assumed 1=Yes, 2=No"] :=
  ⟨by decide, by decide, by decide,
    (C7_categorical_assumptions cYesNo (by decide) (by decide) (by decide)
      (by decide) (by decide) (by decide) (by decide)).1 (by decide)⟩

/-! Claim C8. -/

/-- Membership in the computed `cols_to_drop` list coincides with
membership in the denylist, for a column of the table. -/
theorem mem_cols_to_drop (df : Table) (c : Column) (hc : c ∈ df.cols) :
    c.name ∈ (df.cols.map Column.name).filter
        (fun m => decide (m ∈ metadata_cols)) ↔
      c.name ∈ metadata_cols := by
  constructor
  · intro hmem
    exact of_decide_eq_true (List.mem_filter.mp hmem).2
  · intro hmem
    exact List.mem_filter.mpr
      ⟨List.mem_map_of_mem Column.name hc, decide_eq_true hmem⟩

/-- Claim C8 (confirmed): the Cleaner removes exactly the columns
whose names exactly (case-sensitively) match the eleven-name
denylist; every other column of the row-filtered table passes into
the clean table untouched and in order, no denylist name survives,
and the reported drop count is the number of columns removed. -/
theorem C8_metadata_removal (t : Table) (n : String) (r : PipelineResult)
    (h : process_survey_file t n = .ok r) :
    r.clean_df.cols =
      r.raw_df.cols.filter (fun c => !decide (c.name ∈ metadata_cols)) ∧
    r.metadata_dropped =
      (r.raw_df.cols.filter (fun c => decide (c.name ∈ metadata_cols))).length ∧
    (∀ c ∈ r.clean_df.cols, c.name ∉ metadata_cols) := by
  have hr := ok_eq_buildResult t n r h
  subst hr
  simp only [buildResult]
  have hfilter :
      (dropEmptyKeyRows t).cols.filter
          (fun c => !decide (c.name ∈
            ((dropEmptyKeyRows t).cols.map Column.name).filter
              (fun m => decide (m ∈ metadata_cols)))) =
        (dropEmptyKeyRows t).cols.filter
          (fun c => !decide (c.name ∈ metadata_cols)) := by
    apply List.filter_congr
    intro c hc
    have := mem_cols_to_drop (dropEmptyKeyRows t) c hc
    by_cases hmem : c.name ∈ metadata_cols
    · simp [hmem, this.mpr hmem]
    · simp [hmem, fun hh => hmem (this.mp hh)]
  refine ⟨?_, ?_, ?_⟩
  · exact congrArg Table.cols (congrArg (dropColumns (dropEmptyKeyRows t)) rfl)
      |>.trans hfilter
  · rw [List.filter_map, List.length_map]
    rfl
  · intro c hcmem
    unfold dropColumns at hcmem
    simp only at hcmem
    rw [hfilter] at hcmem
    have := (List.mem_filter.mp hcmem).2
    simpa using this

/-- Claim C8 witness: exact matches `starttime`/`subscriberid` are
dropped; the case-variant `Starttime` and the data columns pass
through in order; the drop count is 2. -/
theorem C8_witness :
    process_survey_file tMeta "f.xlsx" = .ok (buildResult tMeta "f.xlsx") ∧
    (buildResult tMeta "f.xlsx").clean_df.cols.map Column.name =
      ["uid", "Starttime", "q1"] ∧
    (buildResult tMeta "f.xlsx").metadata_dropped = 2 := by
  have hp : process_survey_file tMeta "f.xlsx" =
      .ok (buildResult tMeta "f.xlsx") := process_ok tMeta "f.xlsx" (by decide)
  have h := C8_metadata_removal tMeta "f.xlsx" _ hp
  refine ⟨hp, ?_, ?_⟩
  · rw [h.1]
    decide
  · rw [h.2.1]
    decide

/-! Claim C9. -/

/-- A hit in a consistent cache returns the pipeline's own value. -/
theorem cacheLookup_consistent (cache : Cache) (t : Table) (n : String)
    (r : ProcessResult) (hc : CacheConsistent cache)
    (h : cacheLookup cache (t, n) = some r) :
    r = process_survey_file t n := by
  unfold cacheLookup at h
  cases hf : cache.find? (fun e => decide (e.1 = (t, n))) with
  | none => rw [hf] at h; cases h
  | some e =>
    rw [hf] at h
    have hmem := List.mem_of_find?_eq_some hf
    have hpred := List.find?_some hf
    rw [decide_eq_true_eq] at hpred
    have hval := hc e hmem
    have he2 : e.2 = r := by cases h; rfl
    rw [← he2, hval, hpred]

/-- One memoized call returns the pipeline's value and preserves cache
consistency, whether it hits or misses. -/
theorem cached_process_run (cache : Cache) (t : Table) (n : String)
    (hc : CacheConsistent cache) :
    (cached_process cache t n).1 = process_survey_file t n ∧
    CacheConsistent (cached_process cache t n).2 := by
  cases hf : cacheLookup cache (t, n) with
  | none =>
    have h2 : (cached_process cache t n).2 =
        ((t, n), process_survey_file t n) :: cache := by
      simp [cached_process, hf]
    refine ⟨by simp [cached_process, hf], ?_⟩
    rw [h2]
    intro e he
    rcases List.mem_cons.mp he with h | h
    · subst h; rfl
    · exact hc e h
  | some r =>
    simp only [cached_process, hf]
    exact ⟨cacheLookup_consistent cache t n r hc hf, hc⟩

/-- Claim C9 (confirmed): running the pipeline twice on byte-identical
input (same parsed table, same display name) through the memoization
layer yields structurally identical results — the first run returns
exactly the pipeline's value and the second run (cached or not)
returns the same value. -/
theorem C9_idempotent (cache : Cache) (t₁ t₂ : Table) (n₁ n₂ : String)
    (hcache : CacheConsistent cache) (ht : t₁ = t₂) (hn : n₁ = n₂) :
    (cached_process cache t₁ n₁).1 = process_survey_file t₁ n₁ ∧
    (cached_process (cached_process cache t₁ n₁).2 t₂ n₂).1 =
      (cached_process cache t₁ n₁).1 := by
  subst ht
  subst hn
  obtain ⟨h1, h2⟩ := cached_process_run cache t₁ n₁ hcache
  obtain ⟨h3, _⟩ := cached_process_run (cached_process cache t₁ n₁).2 t₁ n₁ h2
  exact ⟨h1, by rw [h3, h1]⟩

/-- Claim C9 witness: two runs on the same concrete table starting
from the empty cache agree. -/
theorem C9_witness :
    CacheConsistent ([] : Cache) ∧
    (cached_process [] tSmall "f.xlsx").1 = process_survey_file tSmall "f.xlsx" ∧
    (cached_process (cached_process [] tSmall "f.xlsx").2 tSmall "f.xlsx").1 =
      (cached_process [] tSmall "f.xlsx").1 := by
  have hc : CacheConsistent ([] : Cache) := by
    intro e he
    exact absurd he (List.not_mem_nil e)
  exact ⟨hc, (C9_idempotent [] tSmall tSmall "f.xlsx" "f.xlsx" hc rfl rfl).1,
    (C9_idempotent [] tSmall tSmall "f.xlsx" "f.xlsx" hc rfl rfl).2⟩

/-! Claim C10. -/

/-- Claim C10 (confirmed): a numeric-dtype column with no GPS marker
in its name and zero non-empty values is classified `numeric` — not
`empty` (reachable only in the textual branch) and not `percentage`
(the skip-NA min/max test is false on an all-missing column). -/
theorem C10_allnull_numeric (c : Column)
    (hs : c.storage = Storage.numericDt)
    (h1 : nameContains c.name "lat" = false)
    (h2 : nameContains c.name "latitude" = false)
    (h3 : nameContains c.name "lon" = false)
    (h4 : nameContains c.name "longitude" = false)
    (hnull : ∀ v ∈ c.values, v.isNull = true) :
    (columnProfile c).type = "numeric" := by
  have hnum : numVals c.values = [] := by
    rw [numVals, List.filterMap_eq_nil_iff]
    intro v hv
    have := hnull v hv
    cases v <;> simp_all [Value.isNull]
  have hpct : percentageTest c.values = false := by
    unfold percentageTest
    rw [hnum]
  have hobj : ¬(c.storage = Storage.object) := by
    rw [hs]
    intro hh
    cases hh
  simp [columnProfile, classify, h1, h2, h3, h4, hobj, hs, hpct]

/-- Claim C10 witness: an all-missing numeric column is `numeric`. -/
theorem C10_witness :
    cAllNullNum.storage = Storage.numericDt ∧
    (∀ v ∈ cAllNullNum.values, v.isNull = true) ∧
    (columnProfile cAllNullNum).type = "numeric" :=
  ⟨by decide, by decide,
    C10_allnull_numeric cAllNullNum (by decide) (by decide) (by decide)
      (by decide) (by decide) (by decide)⟩
